import Mathlib

/-!
Shallow embedding of `src/agent/component.hpp` (the `Component` class of the
device information model: tree nodes with attributes, data items, compositions
and by-id references that are bound in a deferred resolution pass).

Pointers (`Component *`, `DataItem *`, `Composition *`) are modelled as `Nat`
handles into a `Store` (an arena of components and data items); a null pointer
is `Option.none`.  `std::list`/`std::vector` become `List` with `push_back`
modelled as appending at the end.  `std::map<string,string>` becomes an
association list queried with `List.lookup`.

Member functions whose bodies are inline in the header (`addChild`,
`addComposition`, `addReference`, `setUuid`, `setNativeName`,
`setManufacturer`, `setSerialNumber`, `setStation`, `setDescription`,
`setConfiguration`, `reBuildAttributes`, `getAttributes`, the getters and the
comparison operators) are translated directly from that code.  Bodies that the
repository does not ship under `src/` (`buildAttributes`, `setParent`,
`addDataItem`, `getDevice`, `resolveReferences`) are modelled from the
specification and marked as such in their doc comments.
-/

namespace CppAgent

/-- `Component::Reference::ReferenceType` (component.hpp lines 37-40). -/
inductive ReferenceType where
  | DATA_ITEM
  | COMPONENT
deriving DecidableEq, Repr

/-- `Component::Reference` (component.hpp lines 35-55): an id/name pair with a
declared kind and two nullable binding slots (`m_dataItem`, `m_component`),
both null at construction. -/
structure Reference where
  m_type : ReferenceType
  m_id : String
  m_name : String
  m_dataItem : Option Nat := none
  m_component : Option Nat := none
deriving DecidableEq, Repr

/-- A data item (channel): opaque to this core beyond its id. -/
structure DataItem where
  m_id : String
deriving DecidableEq, Repr

/-- The fields of `class Component` (component.hpp lines 199-244).
`m_pfx` stands for the source's prefix string field, `m_sampleInterval` is kept
opaque (a `float` rendered as an optional string), and the pointer fields
(`m_parent`, `m_device`, children/data-item/composition lists) hold `Nat`
handles. -/
structure Component where
  m_id : String
  m_name : String := ""
  m_nativeName : String := ""
  m_class : String := ""
  m_pfx : String := ""
  m_prefixedClass : String := ""
  m_uuid : String := ""
  m_sampleInterval : Option String := none
  m_description : List (String × String) := []
  m_descriptionBody : String := ""
  m_configuration : String := ""
  m_parent : Option Nat := none
  m_device : Option Nat := none
  m_children : List Nat := []
  m_dataItems : List Nat := []
  m_compositions : List Nat := []
  m_attributes : List (String × String) := []
  m_references : List Reference := []
deriving DecidableEq, Repr

/-- `std::map::operator[]`-style overwrite-insert on an association list. -/
def mapSet (m : List (String × String)) (k v : String) : List (String × String) :=
  (m.filter (fun p => p.1 ≠ k)) ++ [(k, v)]

namespace Component

/-- `getAttributes` (lines 93-94): returns the cached attribute map. -/
def getAttributes (c : Component) : List (String × String) :=
  c.m_attributes

/-- `getParent` (lines 160-161). -/
def getParent (c : Component) : Option Nat :=
  c.m_parent

/-- `getChildren` (lines 166-167). -/
def getChildren (c : Component) : List Nat :=
  c.m_children

/-- `getCompositions` (lines 172-173). -/
def getCompositions (c : Component) : List Nat :=
  c.m_compositions

/-- `getDataItems` (lines 177-178). -/
def getDataItems (c : Component) : List Nat :=
  c.m_dataItems

/-- `getReferences` (lines 188-189). -/
def getReferences (c : Component) : List Reference :=
  c.m_references

/-- `addChild` (lines 164-165): `m_children.push_back(&child);` — it only
appends the child handle to this component's list. -/
def addChild (c : Component) (child : Nat) : Component :=
  { c with m_children := c.m_children ++ [child] }

/-- `addComposition` (lines 170-171): `m_compositions.push_back(composition);` -/
def addComposition (c : Component) (composition : Nat) : Component :=
  { c with m_compositions := c.m_compositions ++ [composition] }

/-- `addReference` (lines 186-187): `m_references.push_back(reference);` -/
def addReference (c : Component) (r : Reference) : Component :=
  { c with m_references := c.m_references ++ [r] }

/-- Modelled from the spec: the body of `Component::addDataItem` is declared at
line 176 but not shipped under `src/`.  §4.2 specifies the channel-adding
operation as append-only, so it appends the data item handle to `m_dataItems`. -/
def addDataItem (c : Component) (dataItem : Nat) : Component :=
  { c with m_dataItems := c.m_dataItems ++ [dataItem] }

/-- Modelled from the spec: the body of `Component::setParent` is declared at
line 159 but not shipped under `src/`.  §3/§4.2 describe it as setting the
child's non-owning parent back-link. -/
def setParent (c : Component) (parent : Nat) : Component :=
  { c with m_parent := some parent }

/-- Modelled from the spec: the body of `Component::buildAttributes` is
declared at line 195 but not shipped under `src/`.  §4.1: it deterministically
derives the attribute map from id, name, nativeName, class, prefixedClass,
uuid and sampleInterval; fields not set (empty / unset) are omitted from the
map rather than emitted empty. -/
def buildAttributes (c : Component) : List (String × String) :=
  (if c.m_id = "" then [] else [("id", c.m_id)])
    ++ (if c.m_name = "" then [] else [("name", c.m_name)])
    ++ (if c.m_nativeName = "" then [] else [("nativeName", c.m_nativeName)])
    ++ (if c.m_class = "" then [] else [("class", c.m_class)])
    ++ (if c.m_prefixedClass = "" then [] else [("prefixedClass", c.m_prefixedClass)])
    ++ (if c.m_uuid = "" then [] else [("uuid", c.m_uuid)])
    ++ (match c.m_sampleInterval with
        | none => []
        | some s => [("sampleInterval", s)])

/-- `reBuildAttributes` (lines 196-197): `m_attributes = buildAttributes();` -/
def reBuildAttributes (c : Component) : Component :=
  { c with m_attributes := c.buildAttributes }

/-- `setUuid` (lines 119-123): assigns `m_uuid` and calls `reBuildAttributes`. -/
def setUuid (c : Component) (uuid : String) : Component :=
  reBuildAttributes { c with m_uuid := uuid }

/-- `setManufacturer` (lines 124-125): `m_description["manufacturer"] = ...`. -/
def setManufacturer (c : Component) (manufacturer : String) : Component :=
  { c with m_description := mapSet c.m_description "manufacturer" manufacturer }

/-- `setSerialNumber` (lines 126-127). -/
def setSerialNumber (c : Component) (serialNumber : String) : Component :=
  { c with m_description := mapSet c.m_description "serialNumber" serialNumber }

/-- `setStation` (lines 128-129). -/
def setStation (c : Component) (station : String) : Component :=
  { c with m_description := mapSet c.m_description "station" station }

/-- `setDescription` (lines 130-131): assigns `m_descriptionBody` only. -/
def setDescription (c : Component) (description : String) : Component :=
  { c with m_descriptionBody := description }

/-- `setNativeName` (lines 132-136): assigns `m_nativeName` and calls
`reBuildAttributes`. -/
def setNativeName (c : Component) (nativeName : String) : Component :=
  reBuildAttributes { c with m_nativeName := nativeName }

/-- `setConfiguration` (lines 152-153): assigns `m_configuration` only. -/
def setConfiguration (c : Component) (configuration : String) : Component :=
  { c with m_configuration := configuration }

/-- `operator<` (lines 180-181): `m_id < comp.getId()`. -/
def ltOp (a b : Component) : Bool :=
  a.m_id < b.m_id

/-- `operator==` (lines 182-183): `m_id == comp.getId()`. -/
def eqOp (a b : Component) : Bool :=
  a.m_id = b.m_id

end Component

/-- `ComponentComp` (lines 247-253): compares two component pointers with
`operator<` on the pointed-to components. -/
def ComponentComp (lhs rhs : Component) : Bool :=
  lhs.ltOp rhs

/-- The arena holding a device tree: components and data items keyed by their
handles (the model of C++ object identity / pointers). -/
structure Store where
  components : List (Nat × Component)
  dataItems : List (Nat × DataItem)
deriving DecidableEq, Repr

/-- An entry of the device-wide identity index: a component or a data item
(channel), by handle. -/
inductive Entity where
  | comp (h : Nat)
  | chan (h : Nat)
deriving DecidableEq, Repr

/-- The kinds of per-reference resolution errors (§7 b, c). -/
inductive ErrKind where
  | UnresolvedReference
  | KindMismatch
deriving DecidableEq, Repr

/-- A per-reference resolution error, reported with the owning component's id,
the reference's id and its declared kind (§7). -/
structure RefError where
  kind : ErrKind
  componentId : String
  refId : String
  refType : ReferenceType
deriving DecidableEq, Repr

namespace Store

/-- Dereference a component handle. -/
def getComp (s : Store) (h : Nat) : Option Component :=
  s.components.lookup h

/-- Update the component stored at a handle. -/
def updateComp (s : Store) (h : Nat) (f : Component → Component) : Store :=
  { s with
    components := s.components.map (fun p => (p.1, if p.1 = h then f p.2 else p.2)) }

/-- Calling `parent.addChild(child)` on the component stored at handle `p`. -/
def addChild (s : Store) (p c : Nat) : Store :=
  s.updateComp p (fun pc => pc.addChild c)

/-- Calling `child.setParent(parent)` on the component stored at handle `c`. -/
def setParent (s : Store) (c p : Nat) : Store :=
  s.updateComp c (fun cc => cc.setParent p)

/-- Modelled from the spec: the device-wide identity index (§4.3 step a,
glossary "Identity index") mapping every entity id in the device to the
component or channel carrying it; it reflects every entity in the store before
any resolution begins. -/
def buildIndex (s : Store) : List (String × Entity) :=
  s.components.map (fun p => (p.2.m_id, Entity.comp p.1))
    ++ s.dataItems.map (fun p => (p.2.m_id, Entity.chan p.1))

end Store

/-- Modelled from the spec: one step of `Component::resolveReferences` (whose
body is declared at line 191 but not shipped under `src/`), following §4.3:
look the reference's id up in the identity index; on a kind-correct match bind
the matching slot (`m_component` for kind COMPONENT, `m_dataItem` for kind
DATA_ITEM); on a missing id leave the reference untouched and report an
`UnresolvedReference` error; on a kind mismatch leave it untouched and report a
`KindMismatch` error. -/
def resolveRef (idx : List (String × Entity)) (ownerId : String) (r : Reference) :
    Reference × Option RefError :=
  match idx.lookup r.m_id with
  | none => (r, some ⟨ErrKind.UnresolvedReference, ownerId, r.m_id, r.m_type⟩)
  | some (Entity.comp h) =>
    match r.m_type with
    | ReferenceType.COMPONENT => ({ r with m_component := some h }, none)
    | ReferenceType.DATA_ITEM => (r, some ⟨ErrKind.KindMismatch, ownerId, r.m_id, r.m_type⟩)
  | some (Entity.chan h) =>
    match r.m_type with
    | ReferenceType.DATA_ITEM => ({ r with m_dataItem := some h }, none)
    | ReferenceType.COMPONENT => (r, some ⟨ErrKind.KindMismatch, ownerId, r.m_id, r.m_type⟩)

/-- Modelled from the spec: `Component::resolveReferences` restricted to one
component — resolve each owned reference in declaration order against the
completed identity index, collecting the per-reference errors (§4.3 step 1,
§7). -/
def Component.resolveReferences (idx : List (String × Entity)) (c : Component) :
    Component × List RefError :=
  ({ c with m_references := c.m_references.map (fun r => (resolveRef idx c.m_id r).1) },
    c.m_references.filterMap (fun r => (resolveRef idx c.m_id r).2))

/-- Modelled from the spec: the resolution pass run over the whole tree
(§4.3 step 2 — the caller invokes `resolveReferences` across the full tree once
the identity index reflects every entity), returning the rebound store and the
collected per-reference errors. -/
def Store.resolveAll (s : Store) : Store × List RefError :=
  ({ s with
      components :=
        s.components.map (fun p => (p.1, (p.2.resolveReferences s.buildIndex).1)) },
    (s.components.map (fun p => (p.2.resolveReferences s.buildIndex).2)).flatten)

/-- Modelled from the spec: `Component::getDevice` (declared at line 156, body
not shipped under `src/`).  §4.2: it walks the parent links to the root and
returns the root typed as the device-level entity; invoking it on a component
not attached to a rooted tree is a precondition violation that fails loudly
(modelled as `Except.error "PrematureTraversal"`, §7 d), never a silent null.
`fuel` bounds the walk so the definition is total. -/
def Store.getDevice (s : Store) : Nat → Nat → Except String Nat
  | 0, _ => Except.error "PrematureTraversal"
  | fuel + 1, h =>
    match s.getComp h with
    | none => Except.error "PrematureTraversal"
    | some c =>
      match c.m_parent with
      | some p => s.getDevice fuel p
      | none =>
        if c.m_class = "Device" then Except.ok h
        else Except.error "PrematureTraversal"

/-- `ChainN s r n c`: starting from handle `c`, following exactly `n` parent
links through store `s` reaches handle `r` (the handles in between all
dereference). -/
inductive ChainN (s : Store) (r : Nat) : Nat → Nat → Prop where
  | zero : ChainN s r 0 r
  | succ (n h p : Nat) (c : Component) :
      s.getComp h = some c → c.m_parent = some p → ChainN s r n p →
      ChainN s r (n + 1) h

/-! ### Concrete fixtures used by witnesses and counterexamples -/

/-- A two-component store: a would-be parent at handle 0 and a child at
handle 1, not yet linked. -/
def s1 : Store :=
  { components := [(0, { m_id := "p" }), (1, { m_id := "c" })], dataItems := [] }

/-- A store where component `x` (handle 0, declared first) holds a
COMPONENT-kind reference to id "y", and component `y` (handle 1) is declared
after it — a forward reference. -/
def s2 : Store :=
  { components :=
      [(0, { m_id := "x",
             m_references := [{ m_type := ReferenceType.COMPONENT, m_id := "y", m_name := "ry" }] }),
       (1, { m_id := "y" })],
    dataItems := [] }

/-- A store where component `x` holds a COMPONENT-kind reference to id
"missing-1", which names no entity anywhere in the store. -/
def s3 : Store :=
  { components :=
      [(0, { m_id := "x",
             m_references :=
               [{ m_type := ReferenceType.COMPONENT, m_id := "missing-1", m_name := "rm" }] }),
       (1, { m_id := "y", m_children := [0] })],
    dataItems := [] }

/-- A store where component `x` holds a COMPONENT-kind reference to id "d1",
but "d1" names a data item (channel): a kind mismatch. -/
def s4 : Store :=
  { components :=
      [(0, { m_id := "x",
             m_references :=
               [{ m_type := ReferenceType.COMPONENT, m_id := "d1", m_name := "rd" }] })],
    dataItems := [(7, { m_id := "d1" })] }

/-- A four-level chain: Device root at handle 0, with 1 under it, 2 under 1,
and leaves 3 and 4 under 2; handle 9 is detached under a non-Device root 8. -/
def s5 : Store :=
  { components :=
      [(0, { m_id := "dev", m_class := "Device" }),
       (1, { m_id := "n1", m_parent := some 0, m_children := [2] }),
       (2, { m_id := "n2", m_parent := some 1, m_children := [3, 4] }),
       (3, { m_id := "leaf3", m_parent := some 2 }),
       (4, { m_id := "leaf4", m_parent := some 2 }),
       (8, { m_id := "orphanRoot" }),
       (9, { m_id := "orphanLeaf", m_parent := some 8 })],
    dataItems := [] }

/-- A component with a uuid already set, used for attribute-view fixtures. -/
def c6fix : Component :=
  { m_id := "c1", m_name := "nm", m_uuid := "u0" }

/-- Concrete components with ids "a", "b", "c" for order-law witnesses. -/
def compA : Component := { m_id := "a" }

/-- See `compA`. -/
def compB : Component := { m_id := "b" }

/-- See `compA`. -/
def compD : Component := { m_id := "c" }

/-! ### Helper lemmas on the store -/

theorem lookup_map_value {κ α β : Type} [BEq κ] [LawfulBEq κ] (g : α → β) (k : κ) :
    ∀ l : List (κ × α), (l.map (fun p => (p.1, g p.2))).lookup k = (l.lookup k).map g := by
  intro l
  induction l with
  | nil => rfl
  | cons p t ih =>
    by_cases h : k = p.1
    · simp [List.lookup, h]
    · simp [List.lookup, beq_false_of_ne h, ih]

theorem lookup_mem {κ α : Type} [BEq κ] [LawfulBEq κ] (k : κ) (v : α) :
    ∀ l : List (κ × α), l.lookup k = some v → (k, v) ∈ l := by
  intro l
  induction l with
  | nil => intro h; simp [List.lookup] at h
  | cons p t ih =>
    obtain ⟨a, b⟩ := p
    intro h
    by_cases hk : k = a
    · subst hk
      simp [List.lookup] at h
      simp [h]
    · simp [List.lookup, beq_false_of_ne hk] at h
      exact List.mem_cons_of_mem _ (ih h)

theorem lookup_map_update {α : Type} (k h : Nat) (f : α → α) :
    ∀ l : List (Nat × α),
      (l.map (fun p => (p.1, if p.1 = h then f p.2 else p.2))).lookup k =
        if k = h then (l.lookup k).map f else l.lookup k := by
  intro l
  induction l with
  | nil => by_cases hk : k = h <;> simp [List.lookup, hk]
  | cons p t ih =>
    obtain ⟨a, b⟩ := p
    by_cases hk : k = a
    · subst hk
      by_cases hh : k = h <;> simp [List.lookup, hh]
    · simp [List.lookup, beq_false_of_ne hk, ih]

theorem getComp_updateComp_self (s : Store) (h : Nat) (f : Component → Component) :
    (s.updateComp h f).getComp h = (s.getComp h).map f := by
  show (s.components.map _).lookup h = _
  rw [lookup_map_update h h f s.components]
  simp [Store.getComp]

theorem getComp_updateComp_ne (s : Store) (h h' : Nat) (f : Component → Component)
    (hne : h' ≠ h) :
    (s.updateComp h f).getComp h' = s.getComp h' := by
  show (s.components.map _).lookup h' = _
  rw [lookup_map_update h' h f s.components]
  simp [Store.getComp, hne]

theorem lookup_none_of_keys {κ α : Type} [BEq κ] [LawfulBEq κ] (k : κ) :
    ∀ l : List (κ × α), (∀ p ∈ l, p.1 ≠ k) → l.lookup k = none := by
  intro l
  induction l with
  | nil => intro _; rfl
  | cons p t ih =>
    intro hall
    obtain ⟨a, b⟩ := p
    have ha : a ≠ k := hall (a, b) (List.mem_cons_self _ _)
    have hb : (k == a) = false := beq_false_of_ne (Ne.symm ha)
    show List.lookup k ((a, b) :: t) = none
    simp only [List.lookup, hb]
    exact ih fun q hq => hall q (List.mem_cons_of_mem _ hq)

theorem lookup_append_some {κ α : Type} [BEq κ] (k : κ) (v : α) :
    ∀ l1 l2 : List (κ × α), l1.lookup k = some v → (l1 ++ l2).lookup k = some v := by
  intro l1 l2
  induction l1 with
  | nil => intro h; simp [List.lookup] at h
  | cons p t ih =>
    intro h
    cases hk : k == p.1 with
    | true => simp_all [List.lookup]
    | false => simp_all [List.lookup]

theorem lookup_append_none {κ α : Type} [BEq κ] (k : κ) :
    ∀ l1 l2 : List (κ × α), l1.lookup k = none → (l1 ++ l2).lookup k = l2.lookup k := by
  intro l1 l2
  induction l1 with
  | nil => intro _; rfl
  | cons p t ih =>
    intro h
    cases hk : k == p.1 with
    | true => simp_all [List.lookup]
    | false => simp_all [List.lookup]

/-- In the component part of the identity index, an id carried by exactly one
component (at handle `y`) looks up to `Entity.comp y`. -/
theorem lookup_comps_map (rid : String) (y : Nat) (cy : Component) :
    ∀ comps : List (Nat × Component), (y, cy) ∈ comps → cy.m_id = rid →
      (∀ p ∈ comps, p.2.m_id = rid → p.1 = y) →
      (comps.map (fun p => (p.2.m_id, Entity.comp p.1))).lookup rid =
        some (Entity.comp y) := by
  intro comps
  induction comps with
  | nil => intro hy; cases hy
  | cons p t ih =>
    intro hy hyid hcu
    by_cases hp : p.2.m_id = rid
    · have hpy : p.1 = y := hcu p (List.mem_cons_self _ _) hp
      simp [List.lookup, hp, hpy]
    · have hyt : (y, cy) ∈ t := by
        rcases List.mem_cons.mp hy with h1 | h2
        · refine absurd ?_ hp
          rw [← h1]
          exact hyid
        · exact h2
      have : (rid == p.2.m_id) = false := beq_false_of_ne (Ne.symm hp)
      simp [List.lookup, this]
      exact ih hyt hyid fun q hq => hcu q (List.mem_cons_of_mem _ hq)

/-- The identity index resolves `rid` to component handle `y` when `y` is the
unique component carrying `rid` and no data item carries it. -/
theorem lookup_buildIndex_comp (s : Store) (rid : String) (y : Nat) (cy : Component)
    (hy : (y, cy) ∈ s.components) (hyid : cy.m_id = rid)
    (hcu : ∀ p ∈ s.components, p.2.m_id = rid → p.1 = y) :
    s.buildIndex.lookup rid = some (Entity.comp y) :=
  lookup_append_some rid (Entity.comp y) _ _
    (lookup_comps_map rid y cy s.components hy hyid hcu)

/-- The identity index has no entry for an id carried by no component and no
data item in the store. -/
theorem lookup_buildIndex_none (s : Store) (rid : String)
    (hc : ∀ p ∈ s.components, p.2.m_id ≠ rid)
    (hd : ∀ q ∈ s.dataItems, q.2.m_id ≠ rid) :
    s.buildIndex.lookup rid = none := by
  have h1 : (s.components.map (fun p => (p.2.m_id, Entity.comp p.1))).lookup rid = none := by
    refine lookup_none_of_keys rid _ fun p hp => ?_
    rcases List.mem_map.mp hp with ⟨q, hq, rfl⟩
    exact hc q hq
  have h2 : (s.dataItems.map (fun p => (p.2.m_id, Entity.chan p.1))).lookup rid = none := by
    refine lookup_none_of_keys rid _ fun p hp => ?_
    rcases List.mem_map.mp hp with ⟨q, hq, rfl⟩
    exact hd q hq
  rw [Store.buildIndex, lookup_append_none rid _ _ h1, h2]

/-- Dereferencing after the whole-tree pass: each component is replaced by its
individually resolved version. -/
theorem resolveAll_getComp (s : Store) (x : Nat) :
    (s.resolveAll).1.getComp x =
      (s.getComp x).map (fun c => (c.resolveReferences s.buildIndex).1) := by
  have h := lookup_map_value (fun c => (c.resolveReferences s.buildIndex).1) x s.components
  simpa [Store.resolveAll, Store.getComp] using h

/-- Any error produced while resolving a component that is in the store is in
the whole-pass error list. -/
theorem mem_resolveAll_errors (s : Store) (x : Nat) (cx : Component) (e : RefError)
    (hx : s.getComp x = some cx) (he : e ∈ (cx.resolveReferences s.buildIndex).2) :
    e ∈ (s.resolveAll).2 := by
  have hmem : (x, cx) ∈ s.components := lookup_mem x cx s.components hx
  have h2 : (cx.resolveReferences s.buildIndex).2 ∈
      s.components.map (fun p => (p.2.resolveReferences s.buildIndex).2) :=
    List.mem_map.mpr ⟨(x, cx), hmem, rfl⟩
  exact List.mem_flatten.mpr ⟨_, h2, he⟩

/-- The j-th reference after resolving a component is the j-th reference
before, passed through `resolveRef`. -/
theorem resolveReferences_getRef (idx : List (String × Entity)) (c : Component) (j : Nat) :
    (c.resolveReferences idx).1.m_references[j]? =
      (c.m_references[j]?).map (fun r => (resolveRef idx c.m_id r).1) :=
  List.getElem?_map ..

/-- A reference whose resolution step reports an error contributes that error
to the component's error list. -/
theorem resolveReferences_err_mem (idx : List (String × Entity)) (c : Component)
    (r : Reference) (e : RefError) (hr : r ∈ c.m_references)
    (he : (resolveRef idx c.m_id r).2 = some e) :
    e ∈ (c.resolveReferences idx).2 :=
  List.mem_filterMap.mpr ⟨r, hr, he⟩

theorem resolveRef_comp_bind (idx : List (String × Entity)) (oid : String)
    (r : Reference) (y : Nat) (ht : r.m_type = ReferenceType.COMPONENT)
    (hidx : idx.lookup r.m_id = some (Entity.comp y)) :
    resolveRef idx oid r = ({ r with m_component := some y }, none) := by
  simp [resolveRef, hidx, ht]

theorem resolveRef_chan_bind (idx : List (String × Entity)) (oid : String)
    (r : Reference) (y : Nat) (ht : r.m_type = ReferenceType.DATA_ITEM)
    (hidx : idx.lookup r.m_id = some (Entity.chan y)) :
    resolveRef idx oid r = ({ r with m_dataItem := some y }, none) := by
  simp [resolveRef, hidx, ht]

theorem resolveRef_unresolved (idx : List (String × Entity)) (oid : String)
    (r : Reference) (hidx : idx.lookup r.m_id = none) :
    resolveRef idx oid r =
      (r, some ⟨ErrKind.UnresolvedReference, oid, r.m_id, r.m_type⟩) := by
  simp [resolveRef, hidx]

theorem resolveRef_mismatch_chan (idx : List (String × Entity)) (oid : String)
    (r : Reference) (y : Nat) (ht : r.m_type = ReferenceType.COMPONENT)
    (hidx : idx.lookup r.m_id = some (Entity.chan y)) :
    resolveRef idx oid r = (r, some ⟨ErrKind.KindMismatch, oid, r.m_id, r.m_type⟩) := by
  simp [resolveRef, hidx, ht]

theorem resolveRef_mismatch_comp (idx : List (String × Entity)) (oid : String)
    (r : Reference) (y : Nat) (ht : r.m_type = ReferenceType.DATA_ITEM)
    (hidx : idx.lookup r.m_id = some (Entity.comp y)) :
    resolveRef idx oid r = (r, some ⟨ErrKind.KindMismatch, oid, r.m_id, r.m_type⟩) := by
  simp [resolveRef, hidx, ht]

/-! ### Theorems for the claims -/

/-- C1 — counterexample.  In the store `s1`, `addChild` called with parent
handle 0 and child handle 1 does not make the child's `getParent()` return the
parent: the child's parent back-link is untouched (it stays null), so the
claim that `addChild(P, C)` also sets C's parent back-link fails. -/
theorem addChild_no_backlink_cex :
    ¬ (((s1.addChild 0 1).getComp 1).bind Component.getParent = some 0) := by
  decide

/-- C1 — amended.  `addChild(P, C)` appends C to the end of P's ordered
children and leaves C (in particular its parent back-link) unchanged; the
separate `setParent(C, P)` call sets C's parent back-link so that afterwards
C's `getParent()` returns P. -/
theorem addChild_appends_setParent_backlinks (s : Store) (p c : Nat)
    (pc cc : Component) (hp : s.getComp p = some pc) (hc : s.getComp c = some cc)
    (hne : c ≠ p) :
    (∃ pc', (s.addChild p c).getComp p = some pc' ∧
      pc'.getChildren = pc.getChildren ++ [c]) ∧
    (s.addChild p c).getComp c = some cc ∧
    (∃ cc', (s.setParent c p).getComp c = some cc' ∧ cc'.getParent = some p) := by
  refine ⟨⟨pc.addChild c, ?_, rfl⟩, ?_, ⟨cc.setParent p, ?_, rfl⟩⟩
  · rw [Store.addChild, getComp_updateComp_self, hp]; rfl
  · rw [Store.addChild, getComp_updateComp_ne _ _ _ _ hne, hc]
  · rw [Store.setParent, getComp_updateComp_self, hc]; rfl

/-- C1 — witness for the amended theorem at the concrete store `s1`. -/
theorem addChild_appends_setParent_backlinks_witness :
    (∃ pc', (s1.addChild 0 1).getComp 0 = some pc' ∧
      pc'.getChildren = Component.getChildren { m_id := "p" } ++ [1]) ∧
    (s1.addChild 0 1).getComp 1 = some { m_id := "c" } ∧
    (∃ cc', (s1.setParent 1 0).getComp 1 = some cc' ∧ cc'.getParent = some 0) :=
  addChild_appends_setParent_backlinks s1 0 1 { m_id := "p" } { m_id := "c" }
    (by decide) (by decide) (by decide)

/-- C2: in a device tree where component X owns a reference of kind COMPONENT
whose id is carried by exactly one component Y in the same tree (wherever X
and Y sit in the declaration order, since the identity index reflects the
whole store before the pass), after the whole-tree resolution pass X's
reference's component binding slot points exactly to Y. -/
theorem resolveAll_binds_forward_component_ref (s : Store) (x y j : Nat)
    (cx cy : Component) (r : Reference)
    (hx : s.getComp x = some cx)
    (hr : cx.m_references[j]? = some r)
    (ht : r.m_type = ReferenceType.COMPONENT)
    (hy : s.getComp y = some cy)
    (hyid : cy.m_id = r.m_id)
    (hcu : ∀ p ∈ s.components, p.2.m_id = r.m_id → p.1 = y)
    (_hdu : ∀ q ∈ s.dataItems, q.2.m_id ≠ r.m_id) :
    ∃ cx', (s.resolveAll).1.getComp x = some cx' ∧
      cx'.m_references[j]? = some { r with m_component := some y } := by
  have hidx : s.buildIndex.lookup r.m_id = some (Entity.comp y) :=
    lookup_buildIndex_comp s r.m_id y cy (lookup_mem y cy s.components hy) hyid hcu
  refine ⟨(cx.resolveReferences s.buildIndex).1, ?_, ?_⟩
  · rw [resolveAll_getComp, hx]; rfl
  · rw [resolveReferences_getRef, hr]
    simp [resolveRef_comp_bind _ cx.m_id _ _ ht hidx]

/-- C2 — witness: in the store `s2`, component `x` (handle 0, declared first)
holds a forward reference to component `y` (handle 1, declared later); after
the pass the reference's component slot points to handle 1. -/
theorem resolveAll_binds_forward_component_ref_witness :
    ∃ cx', (s2.resolveAll).1.getComp 0 = some cx' ∧
      cx'.m_references[0]? =
        some { m_type := ReferenceType.COMPONENT, m_id := "y", m_name := "ry",
               m_dataItem := none, m_component := some 1 } :=
  resolveAll_binds_forward_component_ref s2 0 1 0
    { m_id := "x",
      m_references := [{ m_type := ReferenceType.COMPONENT, m_id := "y", m_name := "ry" }] }
    { m_id := "y" }
    { m_type := ReferenceType.COMPONENT, m_id := "y", m_name := "ry" }
    (by decide) (by decide) (by decide) (by decide) (by decide) (by decide) (by decide)

/-- C3: a reference whose id is carried by no component and no data item
anywhere in the store stays exactly as it was after the whole-tree pass — its
binding slots remain none — an `UnresolvedReference` error carrying the owning
component's id, the reference id and the declared kind is surfaced, every
component in the tree is still dereferenceable with its id, children, data
items, attribute view and parent link intact, and no slot is ever bound to a
guessed target. -/
theorem resolveAll_unresolved_reference (s : Store) (x j : Nat)
    (cx : Component) (r : Reference)
    (hx : s.getComp x = some cx)
    (hr : cx.m_references[j]? = some r)
    (hdn : r.m_dataItem = none) (hcn : r.m_component = none)
    (hc : ∀ p ∈ s.components, p.2.m_id ≠ r.m_id)
    (hd : ∀ q ∈ s.dataItems, q.2.m_id ≠ r.m_id) :
    (∃ cx', (s.resolveAll).1.getComp x = some cx' ∧
      (∃ r', cx'.m_references[j]? = some r' ∧
        r'.m_dataItem = none ∧ r'.m_component = none)) ∧
    (⟨ErrKind.UnresolvedReference, cx.m_id, r.m_id, r.m_type⟩ : RefError) ∈
      (s.resolveAll).2 ∧
    (∀ h ch, s.getComp h = some ch → ∃ ch',
      (s.resolveAll).1.getComp h = some ch' ∧ ch'.m_id = ch.m_id ∧
      ch'.getChildren = ch.getChildren ∧ ch'.getDataItems = ch.getDataItems ∧
      ch'.getAttributes = ch.getAttributes ∧ ch'.getParent = ch.getParent) := by
  have hidx : s.buildIndex.lookup r.m_id = none := lookup_buildIndex_none s r.m_id hc hd
  refine ⟨⟨(cx.resolveReferences s.buildIndex).1, ?_, r, ?_, hdn, hcn⟩, ?_, ?_⟩
  · rw [resolveAll_getComp, hx]; rfl
  · rw [resolveReferences_getRef, hr]
    simp [resolveRef_unresolved _ cx.m_id _ hidx]
  · exact mem_resolveAll_errors s x cx _ hx
      (resolveReferences_err_mem _ cx r _ (List.getElem?_mem hr)
        (by rw [resolveRef_unresolved _ cx.m_id _ hidx]))
  · intro h ch hch
    refine ⟨(ch.resolveReferences s.buildIndex).1, ?_, rfl, rfl, rfl, rfl, rfl⟩
    rw [resolveAll_getComp, hch]; rfl

/-- C3 — witness: in `s3` the reference to id "missing-1" stays unbound, its
`UnresolvedReference` error is reported, and every component stays queryable. -/
theorem resolveAll_unresolved_reference_witness :
    (∃ cx', (s3.resolveAll).1.getComp 0 = some cx' ∧
      (∃ r', cx'.m_references[0]? = some r' ∧
        r'.m_dataItem = none ∧ r'.m_component = none)) ∧
    (⟨ErrKind.UnresolvedReference, "x", "missing-1", ReferenceType.COMPONENT⟩ : RefError) ∈
      (s3.resolveAll).2 ∧
    (∀ h ch, s3.getComp h = some ch → ∃ ch',
      (s3.resolveAll).1.getComp h = some ch' ∧ ch'.m_id = ch.m_id ∧
      ch'.getChildren = ch.getChildren ∧ ch'.getDataItems = ch.getDataItems ∧
      ch'.getAttributes = ch.getAttributes ∧ ch'.getParent = ch.getParent) :=
  resolveAll_unresolved_reference s3 0 0
    { m_id := "x",
      m_references :=
        [{ m_type := ReferenceType.COMPONENT, m_id := "missing-1", m_name := "rm" }] }
    { m_type := ReferenceType.COMPONENT, m_id := "missing-1", m_name := "rm" }
    (by decide) (by decide) (by decide) (by decide) (by decide) (by decide)

/-- C4: a reference of kind COMPONENT whose id resolves in the identity index
to a channel (data item), or of kind DATA_ITEM whose id resolves to a
component, is left completely unchanged by the whole-tree pass (no slot is
bound, silently or otherwise) and a `KindMismatch` error with the owning
component's id, the reference id and the declared kind is reported. -/
theorem resolveAll_kind_mismatch (s : Store) (x j y : Nat)
    (cx : Component) (r : Reference)
    (hx : s.getComp x = some cx)
    (hr : cx.m_references[j]? = some r)
    (hmm : (r.m_type = ReferenceType.COMPONENT ∧
              s.buildIndex.lookup r.m_id = some (Entity.chan y)) ∨
           (r.m_type = ReferenceType.DATA_ITEM ∧
              s.buildIndex.lookup r.m_id = some (Entity.comp y))) :
    (∃ cx', (s.resolveAll).1.getComp x = some cx' ∧ cx'.m_references[j]? = some r) ∧
    (⟨ErrKind.KindMismatch, cx.m_id, r.m_id, r.m_type⟩ : RefError) ∈ (s.resolveAll).2 := by
  have hres : resolveRef s.buildIndex cx.m_id r =
      (r, some ⟨ErrKind.KindMismatch, cx.m_id, r.m_id, r.m_type⟩) := by
    rcases hmm with ⟨ht, hidx⟩ | ⟨ht, hidx⟩
    · exact resolveRef_mismatch_chan _ _ _ y ht hidx
    · exact resolveRef_mismatch_comp _ _ _ y ht hidx
  refine ⟨⟨(cx.resolveReferences s.buildIndex).1, ?_, ?_⟩, ?_⟩
  · rw [resolveAll_getComp, hx]; rfl
  · rw [resolveReferences_getRef, hr]
    simp [hres]
  · exact mem_resolveAll_errors s x cx _ hx
      (resolveReferences_err_mem _ cx r _ (List.getElem?_mem hr) (by rw [hres]))

/-- C4 — witness: in `s4` the COMPONENT-kind reference to id "d1" (which names
a data item) stays unbound and a `KindMismatch` error is reported. -/
theorem resolveAll_kind_mismatch_witness :
    (∃ cx', (s4.resolveAll).1.getComp 0 = some cx' ∧
      cx'.m_references[0]? =
        some { m_type := ReferenceType.COMPONENT, m_id := "d1", m_name := "rd" }) ∧
    (⟨ErrKind.KindMismatch, "x", "d1", ReferenceType.COMPONENT⟩ : RefError) ∈
      (s4.resolveAll).2 :=
  resolveAll_kind_mismatch s4 0 0 7
    { m_id := "x",
      m_references := [{ m_type := ReferenceType.COMPONENT, m_id := "d1", m_name := "rd" }] }
    { m_type := ReferenceType.COMPONENT, m_id := "d1", m_name := "rd" }
    (by decide) (by decide) (Or.inl ⟨by decide, by decide⟩)

/-- Insertion via repeated `addChild` appends in order. -/
theorem foldl_addChild (xs : List Nat) :
    ∀ c : Component, (xs.foldl Component.addChild c).getChildren = c.getChildren ++ xs := by
  induction xs with
  | nil => intro c; simp
  | cons x t ih =>
    intro c
    rw [List.foldl_cons, ih]
    simp [Component.addChild, Component.getChildren]

/-- Insertion via repeated `addDataItem` appends in order. -/
theorem foldl_addDataItem (ds : List Nat) :
    ∀ c : Component, (ds.foldl Component.addDataItem c).getDataItems = c.getDataItems ++ ds := by
  induction ds with
  | nil => intro c; simp
  | cons x t ih =>
    intro c
    rw [List.foldl_cons, ih]
    simp [Component.addDataItem, Component.getDataItems]

/-- Insertion via repeated `addComposition` appends in order. -/
theorem foldl_addComposition (cs : List Nat) :
    ∀ c : Component,
      (cs.foldl Component.addComposition c).getCompositions = c.getCompositions ++ cs := by
  induction cs with
  | nil => intro c; simp
  | cons x t ih =>
    intro c
    rw [List.foldl_cons, ih]
    simp [Component.addComposition, Component.getCompositions]

/-- Insertion via repeated `addReference` appends in order. -/
theorem foldl_addReference (rs : List Reference) :
    ∀ c : Component,
      (rs.foldl Component.addReference c).getReferences = c.getReferences ++ rs := by
  induction rs with
  | nil => intro c; simp
  | cons x t ih =>
    intro c
    rw [List.foldl_cons, ih]
    simp [Component.addReference, Component.getReferences]

/-- C5: for every component and every sequence of insertions into its
children, data items, compositions and references, iterating each collection
(`getChildren`, `getDataItems`, `getCompositions`, `getReferences`) yields
exactly the elements in insertion order, appended after any pre-existing ones,
with no implicit sorting; in particular children inserted in order `xs` are
returned as exactly `xs`. -/
theorem insertion_order_preserved (c : Component) (xs ds cs : List Nat)
    (rs : List Reference) :
    (xs.foldl Component.addChild c).getChildren = c.getChildren ++ xs ∧
    (ds.foldl Component.addDataItem c).getDataItems = c.getDataItems ++ ds ∧
    (cs.foldl Component.addComposition c).getCompositions = c.getCompositions ++ cs ∧
    (rs.foldl Component.addReference c).getReferences = c.getReferences ++ rs :=
  ⟨foldl_addChild xs c, foldl_addDataItem ds c, foldl_addComposition cs c,
    foldl_addReference rs c⟩

/-- C10: the description/configuration setters (`setManufacturer`,
`setSerialNumber`, `setStation`, `setDescription`, `setConfiguration`) leave
the cached attribute view returned by `getAttributes` unchanged; only `setUuid`
and `setNativeName` rebuild it (to `buildAttributes` of the updated
component). -/
theorem description_setters_frame (c : Component) (v : String) :
    ((c.setManufacturer v).getAttributes = c.getAttributes) ∧
    ((c.setSerialNumber v).getAttributes = c.getAttributes) ∧
    ((c.setStation v).getAttributes = c.getAttributes) ∧
    ((c.setDescription v).getAttributes = c.getAttributes) ∧
    ((c.setConfiguration v).getAttributes = c.getAttributes) ∧
    ((c.setUuid v).getAttributes = Component.buildAttributes { c with m_uuid := v }) ∧
    ((c.setNativeName v).getAttributes =
      Component.buildAttributes { c with m_nativeName := v }) :=
  ⟨rfl, rfl, rfl, rfl, rfl, rfl, rfl⟩

/-- A set uuid appears in the built attribute map. -/
theorem buildAttributes_uuid_some (c : Component) (h : c.m_uuid ≠ "") :
    c.buildAttributes.lookup "uuid" = some c.m_uuid := by
  by_cases h1 : c.m_id = "" <;> by_cases h2 : c.m_name = "" <;>
    by_cases h3 : c.m_nativeName = "" <;> by_cases h4 : c.m_class = "" <;>
    by_cases h5 : c.m_prefixedClass = "" <;> cases h6 : c.m_sampleInterval <;>
    simp [Component.buildAttributes, h1, h2, h3, h4, h5, h6, h, List.lookup]

/-- An unset (empty) uuid is omitted from the built attribute map. -/
theorem buildAttributes_uuid_none (c : Component) (h : c.m_uuid = "") :
    c.buildAttributes.lookup "uuid" = none := by
  by_cases h1 : c.m_id = "" <;> by_cases h2 : c.m_name = "" <;>
    by_cases h3 : c.m_nativeName = "" <;> by_cases h4 : c.m_class = "" <;>
    by_cases h5 : c.m_prefixedClass = "" <;> cases h6 : c.m_sampleInterval <;>
    simp [Component.buildAttributes, h1, h2, h3, h4, h5, h6, h, List.lookup]

/-- A set nativeName appears in the built attribute map. -/
theorem buildAttributes_native_some (c : Component) (h : c.m_nativeName ≠ "") :
    c.buildAttributes.lookup "nativeName" = some c.m_nativeName := by
  by_cases h1 : c.m_id = "" <;> by_cases h2 : c.m_name = "" <;>
    by_cases h4 : c.m_class = "" <;> by_cases h5 : c.m_prefixedClass = "" <;>
    by_cases h7 : c.m_uuid = "" <;> cases h6 : c.m_sampleInterval <;>
    simp [Component.buildAttributes, h1, h2, h4, h5, h6, h7, h, List.lookup]

/-- An unset (empty) nativeName contributes no entry at all to the built
attribute map. -/
theorem buildAttributes_native_notmem (c : Component) (h : c.m_nativeName = "")
    (v : String) : ("nativeName", v) ∉ c.buildAttributes := by
  by_cases h1 : c.m_id = "" <;> by_cases h2 : c.m_name = "" <;>
    by_cases h4 : c.m_class = "" <;> by_cases h5 : c.m_prefixedClass = "" <;>
    by_cases h7 : c.m_uuid = "" <;> cases h6 : c.m_sampleInterval <;>
    simp [Component.buildAttributes, h1, h2, h4, h5, h6, h7, h]

/-- C6 — counterexample.  The claim quantifies over every string `u`, but for
`u = ""` the rebuilt attribute view omits the uuid key entirely (an unset
field is omitted, not emitted empty), so `getAttributes()` does not map the
uuid key to `u`. -/
theorem setUuid_empty_cex :
    ¬ ((c6fix.setUuid "").getAttributes.lookup "uuid" = some "") := by
  decide

/-- C6 — amended.  For every component and every nonempty string `u`,
`setUuid(u)` rebuilds the cached attribute view so that `getAttributes()` maps
the uuid key to `u`, while no other field of the component is changed by the
call (for empty `u` the uuid key is instead omitted from the view). -/
theorem setUuid_rebuilds_attribute_view (c : Component) (u : String) (hu : u ≠ "") :
    (c.setUuid u).getAttributes.lookup "uuid" = some u ∧
    (c.setUuid u).m_id = c.m_id ∧ (c.setUuid u).m_name = c.m_name ∧
    (c.setUuid u).m_nativeName = c.m_nativeName ∧ (c.setUuid u).m_class = c.m_class ∧
    (c.setUuid u).m_pfx = c.m_pfx ∧ (c.setUuid u).m_prefixedClass = c.m_prefixedClass ∧
    (c.setUuid u).m_sampleInterval = c.m_sampleInterval ∧
    (c.setUuid u).m_description = c.m_description ∧
    (c.setUuid u).m_descriptionBody = c.m_descriptionBody ∧
    (c.setUuid u).m_configuration = c.m_configuration ∧
    (c.setUuid u).m_parent = c.m_parent ∧
    (c.setUuid u).m_children = c.m_children ∧
    (c.setUuid u).m_dataItems = c.m_dataItems ∧
    (c.setUuid u).m_compositions = c.m_compositions ∧
    (c.setUuid u).m_references = c.m_references :=
  ⟨buildAttributes_uuid_some { c with m_uuid := u } hu,
    rfl, rfl, rfl, rfl, rfl, rfl, rfl, rfl, rfl, rfl, rfl, rfl, rfl, rfl, rfl⟩

/-- C6 — witness for the amended theorem at a concrete component and uuid. -/
theorem setUuid_rebuilds_attribute_view_witness :
    (c6fix.setUuid "u1").getAttributes.lookup "uuid" = some "u1" :=
  (setUuid_rebuilds_attribute_view c6fix "u1" (by decide)).1

/-- C7: `==` on components holds exactly when the ids are equal, `<` holds
exactly when the left id is lexicographically smaller, and `<` together with
`==` forms a total order consistent with equality: `==` is reflexive and
symmetric, `<` is transitive and asymmetric, two components neither of which
is `<` the other are `==`, any two components compare one of the three ways,
and `ComponentComp` orders pointed-to components by the same `<`. -/
theorem component_id_total_order (A B C : Component) :
    (A.eqOp B = true ↔ A.m_id = B.m_id) ∧
    (A.ltOp B = true ↔ A.m_id < B.m_id) ∧
    A.eqOp A = true ∧
    (A.eqOp B = true → B.eqOp A = true) ∧
    (A.ltOp B = true → B.ltOp C = true → A.ltOp C = true) ∧
    (A.ltOp B = true → B.ltOp A = false) ∧
    (A.ltOp B = false → B.ltOp A = false → A.eqOp B = true) ∧
    (A.ltOp B = true ∨ A.eqOp B = true ∨ B.ltOp A = true) ∧
    ComponentComp A B = A.ltOp B := by
  refine ⟨?_, ?_, ?_, ?_, ?_, ?_, ?_, ?_, rfl⟩
  · simp [Component.eqOp]
  · simp [Component.ltOp]
  · simp [Component.eqOp]
  · simp [Component.eqOp]
    exact fun h => h.symm
  · simp [Component.ltOp]
    exact fun h1 h2 => lt_trans h1 h2
  · simp only [Component.ltOp, decide_eq_true_eq, decide_eq_false_iff_not]
    exact fun h => lt_asymm h
  · simp only [Component.ltOp, Component.eqOp, decide_eq_true_eq,
      decide_eq_false_iff_not]
    exact fun h1 h2 => le_antisymm (not_lt.mp h2) (not_lt.mp h1)
  · simp only [Component.ltOp, Component.eqOp, decide_eq_true_eq]
    exact lt_trichotomy A.m_id B.m_id

/-- C7 — witness: transitivity of `<` applied at the concrete components with
ids "a", "b", "c". -/
theorem component_id_total_order_witness :
    Component.ltOp compA compD = true :=
  (component_id_total_order compA compB compD).2.2.2.2.1
    (by simp [compA, compB, Component.ltOp, String.lt_iff_toList_lt]; decide)
    (by simp [compB, compD, Component.ltOp, String.lt_iff_toList_lt]; decide)

/-- C8: `buildAttributes` omits unset fields instead of emitting them with
empty-string values: when nativeName is the empty string the result contains
no entry at all for the nativeName key, and when nativeName is nonempty the
key maps to it — so absence of the attribute and an empty-string attribute
stay distinguishable. -/
theorem buildAttributes_omits_unset_fields (c : Component) :
    (c.m_nativeName = "" → ∀ v, ("nativeName", v) ∉ c.buildAttributes) ∧
    (c.m_nativeName ≠ "" →
      c.buildAttributes.lookup "nativeName" = some c.m_nativeName) :=
  ⟨fun h v => buildAttributes_native_notmem c h v,
    fun h => buildAttributes_native_some c h⟩

/-- C8 — witness at concrete components with unset and set nativeName. -/
theorem buildAttributes_omits_unset_fields_witness :
    (∀ v, ("nativeName", v) ∉ Component.buildAttributes { m_id := "c1" }) ∧
    (Component.buildAttributes { m_id := "c1", m_nativeName := "nn" }).lookup
      "nativeName" = some "nn" :=
  ⟨(buildAttributes_omits_unset_fields { m_id := "c1" }).1 rfl,
    (buildAttributes_omits_unset_fields { m_id := "c1", m_nativeName := "nn" }).2
      (by decide)⟩

/-- Walking a parent chain: `getDevice` lands at the chain's parentless end,
succeeding iff that end is a Device. -/
theorem getDevice_chain_aux (s : Store) (r : Nat) (cr : Component)
    (hr : s.getComp r = some cr) (hroot : cr.m_parent = none) :
    ∀ (n c : Nat), ChainN s r n c → ∀ fuel, n < fuel →
      (cr.m_class = "Device" → s.getDevice fuel c = Except.ok r) ∧
      (cr.m_class ≠ "Device" →
        s.getDevice fuel c = Except.error "PrematureTraversal") := by
  intro n c hch
  induction hch with
  | zero =>
    intro fuel hf
    obtain ⟨fuel', rfl⟩ : ∃ f, fuel = f + 1 := ⟨fuel - 1, by omega⟩
    refine ⟨fun hd => ?_, fun hd => ?_⟩ <;>
      simp [Store.getDevice, hr, hroot, hd]
  | succ m h p cc hgc hpar _ ih =>
    intro fuel hf
    obtain ⟨fuel', rfl⟩ : ∃ f, fuel = f + 1 := ⟨fuel - 1, by omega⟩
    have ihp := ih fuel' (by omega)
    refine ⟨fun hd => ?_, fun hd => ?_⟩ <;>
      simp only [Store.getDevice, hgc, hpar]
    · exact ihp.1 hd
    · exact ihp.2 hd

/-- C9: from every component attached under a parentless root, `getDevice`
walks the parent links and returns exactly that root handle whenever the root
is a Device — the same single root whatever the depth or starting descendant —
and when the chain's parentless end is not a Device root (the component is not
attached to a rooted tree) it fails loudly with a PrematureTraversal error
instead of silently returning a null default. -/
theorem getDevice_returns_shared_root (s : Store) (fuel n c r : Nat)
    (cr : Component) (hch : ChainN s r n c) (hr : s.getComp r = some cr)
    (hroot : cr.m_parent = none) (hf : n < fuel) :
    (cr.m_class = "Device" → s.getDevice fuel c = Except.ok r) ∧
    (cr.m_class ≠ "Device" →
      s.getDevice fuel c = Except.error "PrematureTraversal") :=
  getDevice_chain_aux s r cr hr hroot n c hch fuel hf

/-- C9 — witness: in the store `s5`, the leaves at handles 3 and 4 (three
levels deep) both get the identical Device root handle 0, and the detached
component at handle 9 (whose chain ends at the non-Device handle 8) fails
loudly. -/
theorem getDevice_returns_shared_root_witness :
    s5.getDevice 10 3 = Except.ok 0 ∧ s5.getDevice 10 4 = Except.ok 0 ∧
    s5.getDevice 10 9 = Except.error "PrematureTraversal" := by
  have ch1 : ChainN s5 0 1 1 :=
    ChainN.succ 0 1 0 { m_id := "n1", m_parent := some 0, m_children := [2] }
      (by decide) (by decide) ChainN.zero
  have ch2 : ChainN s5 0 2 2 :=
    ChainN.succ 1 2 1 { m_id := "n2", m_parent := some 1, m_children := [3, 4] }
      (by decide) (by decide) ch1
  have ch3 : ChainN s5 0 3 3 :=
    ChainN.succ 2 3 2 { m_id := "leaf3", m_parent := some 2 }
      (by decide) (by decide) ch2
  have ch4 : ChainN s5 0 3 4 :=
    ChainN.succ 2 4 2 { m_id := "leaf4", m_parent := some 2 }
      (by decide) (by decide) ch2
  have ch9 : ChainN s5 8 1 9 :=
    ChainN.succ 0 9 8 { m_id := "orphanLeaf", m_parent := some 8 }
      (by decide) (by decide) ChainN.zero
  refine ⟨?_, ?_, ?_⟩
  · exact (getDevice_returns_shared_root s5 10 3 3 0
      { m_id := "dev", m_class := "Device" } ch3 (by decide) (by decide)
      (by omega)).1 (by decide)
  · exact (getDevice_returns_shared_root s5 10 3 4 0
      { m_id := "dev", m_class := "Device" } ch4 (by decide) (by decide)
      (by omega)).1 (by decide)
  · exact (getDevice_returns_shared_root s5 10 1 9 8
      { m_id := "orphanRoot" } ch9 (by decide) (by decide)
      (by omega)).2 (by decide)

end CppAgent
